import Mathlib

/-!
Shallow embedding of src/src/utils/captcha/two_captcha.py: the Captcha class,
its unified exception-mapping wrapper, the image-CAPTCHA and recaptcha-v2
handlers, the dead Cloudflare Turnstile entry point, and the top-level solve
dispatcher. External collaborators (browser driver, solving service,
filesystem, human prompt) are modelled as explicit state plus an effect
trace; the solving-service response is an input to each handler.
-/

/-- Python exceptions relevant to the module: the three typed twocaptcha
exceptions that the wrapper catches specifically, plus one constructor for
every other Exception subclass (TypeError, ValueError, AttributeError,
NoSuchElementException, ...), each carrying its message text. -/
inductive PyExn
  | timeoutException (msg : String)
  | networkException (msg : String)
  | apiException (msg : String)
  | otherException (msg : String)
deriving DecidableEq

/-- Message text of an exception, as Python str(e) would render it. -/
def PyExn.msg : PyExn → String
  | .timeoutException m => m
  | .networkException m => m
  | .apiException m => m
  | .otherException m => m

/-- Status tag assigned by the except-clauses of Captcha._solve_captcha,
in the order the source lists them. -/
def pyExnTag : PyExn → String
  | .timeoutException _ => "TIMEOUT"
  | .networkException _ => "NETWORK_ERROR"
  | .apiException _ => "API_ERROR"
  | .otherException _ => "UNKNOWN_ERROR"

/-- Solving-service response: a record carrying the solved code, which is
the only field the module ever reads from the returned dictionary. -/
structure RawResult where
  code : String
deriving DecidableEq

/-- A single-quote character, used when rendering the Python repr of the
solving-service response dictionary. -/
def pySQuote : String := String.mk [Char.ofNat 39]

/-- The dynamically typed third component of the result triples produced by
the module: an exception object, the raw solving-service response, or a
plain string (a page URL or the empty initializer). -/
inductive PyVal
  | exn (e : PyExn)
  | raw (r : RawResult)
  | str (s : String)
deriving DecidableEq

/-- Python indexing msg with the key code: succeeds on the raw response
dictionary and raises on the other value shapes. -/
def PyVal.code : PyVal → Except PyExn String
  | .raw r => .ok r.code
  | _ => .error (.otherException "TypeError")

/-- Rendering of a PyVal inside an f-string, as Python str would do it;
the raw-response case is the dict repr. -/
def pyValStr : PyVal → String
  | .str s => s
  | .exn e => e.msg
  | .raw r =>
      "\x7b" ++ pySQuote ++ "code" ++ pySQuote ++ ": " ++ pySQuote ++ r.code
        ++ pySQuote ++ "\x7d"

/-- Value returned by Captcha._solve_captcha: normally a Python 3-tuple
(success, status, detail); when the result callback raises, the
return-inside-finally instead hands back the raw solving-service response
unchanged. -/
inductive WrapResult
  | triple (success : Bool) (status : String) (msg : PyVal)
  | rawOnly (r : RawResult)
deriving DecidableEq

/-- Python tuple unpacking of a wrapper result into success, status, msg:
a raw (non-triple) value raises ValueError at the unpacking site. -/
def unpack3 : WrapResult → Except PyExn (Bool × String × PyVal)
  | .triple s st m => .ok (s, st, m)
  | .rawOnly _ => .error (.otherException "ValueError")

/-- Python x or default for an optional string argument: None and the
empty string are both falsy. -/
def pyOrStr : Option String → String → String
  | none, d => d
  | some s, d => if s = "" then d else s

/-- Python str.lower on the ASCII strings the module compares. -/
def pyLower (s : String) : String :=
  String.mk (s.data.map Char.toLower)

/-- Whether the second list is a prefix of the first. -/
def listHasPrefix : List Char → List Char → Bool
  | _, [] => true
  | [], _ :: _ => false
  | a :: xs, b :: ys => a == b && listHasPrefix xs ys

/-- Whether the needle occurs contiguously inside the haystack. -/
def listHasInfix : List Char → List Char → Bool
  | [], needle => needle.isEmpty
  | a :: xs, needle => listHasPrefix (a :: xs) needle || listHasInfix xs needle

/-- Whether the needle string occurs as a substring of the haystack. -/
def strContains (hay needle : String) : Bool :=
  listHasInfix hay.data needle.data

deriving instance DecidableEq for Except

/-- Value of one base64 alphabet character, none for characters outside
the alphabet. -/
def b64CharVal (c : Char) : Option Nat :=
  if 65 ≤ c.toNat ∧ c.toNat ≤ 90 then some (c.toNat - 65)
  else if 97 ≤ c.toNat ∧ c.toNat ≤ 122 then some (c.toNat - 97 + 26)
  else if 48 ≤ c.toNat ∧ c.toNat ≤ 57 then some (c.toNat - 48 + 52)
  else if c = '+' then some 62
  else if c = '/' then some 63
  else none

/-- The lenient decoding loop of CPython binascii a2b_base64, which
base64.decodebytes calls: quad_pos is the position inside the current
four-character group, leftchar holds the pending bits of that group, pads
counts padding signs seen since the last data character. Data characters
emit output bytes incrementally; characters outside the alphabet are
discarded; a pad sequence completing a group of at least two data
characters ends the data, discarding the rest; any other padding sign is
skipped while counted; leftover group positions at the end of input raise
binascii.Error (Incorrect padding, or the one-extra-character variant at
position one). -/
def b64DecodeLoop : List Char → Nat → Nat → Nat → Except PyExn (List Nat)
  | [], 0, _, _ => Except.ok []
  | [], 1, _, _ =>
      Except.error (PyExn.otherException
        "binascii.Error: Invalid base64-encoded string")
  | [], _, _, _ =>
      Except.error (PyExn.otherException "binascii.Error: Incorrect padding")
  | c :: rest, quad_pos, leftchar, pads =>
      if c = '=' then
        if 2 ≤ quad_pos ∧ 4 ≤ quad_pos + (pads + 1) then Except.ok []
        else b64DecodeLoop rest quad_pos leftchar (pads + 1)
      else
        match b64CharVal c with
        | none => b64DecodeLoop rest quad_pos leftchar pads
        | some v =>
            match quad_pos with
            | 0 => b64DecodeLoop rest 1 v 0
            | 1 => (b64DecodeLoop rest 2 (v % 16) 0).map
                (fun out => (leftchar * 4 + v / 16) :: out)
            | 2 => (b64DecodeLoop rest 3 (v % 4) 0).map
                (fun out => (leftchar * 16 + v / 4) :: out)
            | _ => (b64DecodeLoop rest 0 0 0).map
                (fun out => (leftchar * 64 + v) :: out)

/-- Python base64.decodebytes: decode via the binascii loop, raising
binascii.Error on mis-padded input such as a leftover group of one to
three data characters. -/
def decodebytes (s : String) : Except PyExn (List Nat) :=
  b64DecodeLoop s.data 0 0 0

/-- A DOM element, reduced to its attribute list; get_attribute is lookup
in that list, returning none (Python None) for an absent attribute. -/
structure Elem where
  attrs : List (String × String)
deriving DecidableEq

/-- Selenium get_attribute: the attribute value, or none when absent. -/
def Elem.getAttr (e : Elem) (name : String) : Option String :=
  e.attrs.lookup name

/-- The browser session: the current URL and the elements of the page, in
document order. -/
structure Driver where
  currentUrl : String
  elems : List Elem

/-- Selenium locator strategies used by the module. -/
inductive By
  | id
  | cssSelector
  | xpath
deriving DecidableEq

/-- Attribute name of a css attribute-presence selector written between
square brackets, none for other selector shapes. -/
def cssAttrName (selector : String) : Option String :=
  match selector.data with
  | '[' :: rest =>
      if rest.getLast? = some ']' then some (String.mk rest.dropLast) else none
  | _ => none

/-- Modelled from the spec: src.utils.common.selenium_common.is_elem_present
is repository code that is not under src. Section 6 gives the Browser
Session contract find-element-by-id/css/xpath with a nullable result, so
this returns the first matching element of the page or none. The only css
selector the module uses is the attribute-presence form. -/
def is_elem_present (d : Driver) (byK : By) (selector : String) : Option Elem :=
  match byK with
  | By.id => d.elems.find? (fun e => e.getAttr "id" == some selector)
  | By.cssSelector =>
      match cssAttrName selector with
      | some attr => d.elems.find? (fun e => (e.getAttr attr).isSome)
      | none => none
  | By.xpath => none

/-- Selenium driver.find_element: like the nullable lookup but raising
NoSuchElementException when nothing matches. -/
def find_element (d : Driver) (byK : By) (selector : String) : Except PyExn Elem :=
  match is_elem_present d byK selector with
  | some e => .ok e
  | none => .error (.otherException "NoSuchElementException")

/-- The filesystem, as a map from paths to byte contents. -/
abbrev FS := String → Option (List Nat)

/-- Filesystem with no files. -/
def emptyFS : FS := fun _ => none

/-- Contents of a file, none when the path does not exist. -/
def fsRead (fs : FS) (p : String) : Option (List Nat) := fs p

/-- Create or overwrite a file (Python open with mode wb plus write). -/
def fsWrite (fs : FS) (p : String) (bytes : List Nat) : FS :=
  fun q => if q = p then some bytes else fs q

/-- Delete a file if present. -/
def fsRemove (fs : FS) (p : String) : FS :=
  fun q => if q = p then none else fs q

/-- Python os.rename: move the source file to the destination path,
overwriting it. The module only renames a file it has just written, so the
missing-source case (a FileNotFoundError in Python) is left as the
unchanged filesystem. -/
def fsRename (fs : FS) (src dst : String) : FS :=
  match fs src with
  | some bytes => fsWrite (fsRemove fs src) dst bytes
  | none => fs

/-- Modelled from the spec: src.utils.common.utils.remove_files is
repository code that is not under src. Section 6 says the temp image is
deleted when not archived, so this removes each listed path. -/
def remove_files (fs : FS) (paths : List String) : FS :=
  paths.foldl fsRemove fs

/-- Observable actions the module performs against its external
collaborators: solving-service calls (the normal call records a snapshot
of the submitted file content at call time), simulated typing, script
execution with an optional element argument, and the manual-fallback
prompt. -/
inductive Effect
  | solverNormal (file : String) (content : Option (List Nat))
      (caseSensitive minLength maxLength : Nat)
  | solverRecaptcha (sitekey url : String)
  | solverTurnstile (sitekey url action data pagedata useragent : String)
  | sendKeys (elem : Elem) (text : String)
  | execScript (script : String) (arg : Option Elem)
  | promptInput (prompt : String)
deriving DecidableEq

/-- Whether an effect is a Turnstile solving-service call. -/
def Effect.isTurnstile : Effect → Bool
  | .solverTurnstile .. => true
  | _ => false

/-- Whether an effect is simulated typing. -/
def Effect.isSendKeys : Effect → Bool
  | .sendKeys .. => true
  | _ => false

/-- The Captcha instance: its constructor configuration fields.
The save_solved_captchas flag lives on the log configuration in the
source; the Log class is repository code not under src, so the flag is
modelled from the spec (section 6: an externally-owned log configuration
flag save_solved_captchas) as a plain boolean field here. Logging itself
is inert and is not modelled. -/
structure Captcha where
  api_key : Option String
  enabled : Bool
  debug_mode : Bool
  save_solved_captchas : Bool

/-- Captcha._solve_captcha: run the solve callback (given as its effect
trace paired with its outcome); map a raised twocaptcha timeout, network
or API exception, or any other exception, to a (False, tag, exception)
triple; on success run the result callback and report (True, SOLVED, raw
response). The return inside the finally block means an exception raised
by the result callback is suppressed and the raw response, still bound to
result from the else branch entry, is returned as is. -/
def Captcha._solve_captcha (_self : Captcha)
    (solve_callback : List Effect × Except PyExn RawResult)
    (result_callback : RawResult → List Effect × Except PyExn Unit)
    (_debug_enabled : Bool) : WrapResult × List Effect :=
  match solve_callback.2 with
  | Except.error e =>
      (WrapResult.triple false (pyExnTag e) (PyVal.exn e), solve_callback.1)
  | Except.ok result =>
      match result_callback result with
      | (applyEffects, Except.ok _) =>
          (WrapResult.triple true "SOLVED" (PyVal.raw result),
            solve_callback.1 ++ applyEffects)
      | (applyEffects, Except.error _) =>
          (WrapResult.rawOnly result, solve_callback.1 ++ applyEffects)

/-- Captcha.save_captcha: look up the fixed image and input elements; when
both are present, strip the 23-character data-URI prefix from the src
attribute of the image, base64-decode the remainder, write the bytes to
the given path and return the input element; when either is absent return
False (here none) without touching the filesystem. Reading src from an
image element that lacks it yields Python None, and slicing None raises
TypeError before the file is opened. Opening the file with mode wb
truncates it before the write argument is evaluated, so a binascii.Error
raised by the decode propagates while an empty file stays at the path.
The filesystem component of the result is returned in every case. -/
def Captcha.save_captcha (_self : Captcha) (d : Driver) (fs : FS)
    (captcha_image_filepath : String) : Except PyExn (Option Elem) × FS :=
  match is_elem_present d By.id "ctl00_ContentPlaceHolder1_CaptchaImg",
      is_elem_present d By.id "ctl00_ContentPlaceHolder1_txtVerificationCode" with
  | some captcha_element, some captcha_input =>
      match captcha_element.getAttr "src" with
      | some src =>
          match decodebytes (src.drop 23) with
          | Except.ok bytes =>
              (Except.ok (some captcha_input),
                fsWrite (fsWrite fs captcha_image_filepath [])
                  captcha_image_filepath bytes)
          | Except.error e =>
              (Except.error e, fsWrite fs captcha_image_filepath [])
      | none => (Except.error (PyExn.otherException "TypeError"), fs)
  | _, _ => (Except.ok none, fs)

/-- Captcha.normal_captcha: write the page image to the fixed temp path via
save_captcha; when the markup is absent return the NO CAPTCHA FOUND IN
triple naming the page URL. Otherwise call the solving service on the temp
file with caseSensitive 1, minLength 6 and maxLength 6 through the unified
wrapper, typing the returned code into the input element on success; then
either rename the temp file to the archive path named by the solved code
(archival flag set and a SOLVED success) or delete the temp file, and
return the unpacked triple. The solving-service outcome is the solverResp
argument. -/
def Captcha.normal_captcha (self : Captcha) (d : Driver) (fs : FS)
    (page_url : String) (debug_enabled : Bool)
    (solverResp : Except PyExn RawResult) :
    Except PyExn (Bool × String × PyVal) × FS × List Effect :=
  match Captcha.save_captcha self d fs "temp/normal_captcha.jpeg" with
  | (Except.error e, fs1) => (Except.error e, fs1, [])
  | (Except.ok none, fs1) =>
      (Except.ok (false, "NO CAPTCHA FOUND IN", PyVal.str page_url), fs1, [])
  | (Except.ok (some captcha_input), fs1) =>
      match Captcha._solve_captcha self
          ([Effect.solverNormal "temp/normal_captcha.jpeg"
              (fsRead fs1 "temp/normal_captcha.jpeg") 1 6 6], solverResp)
          (fun result => ([Effect.sendKeys captcha_input result.code],
            Except.ok ()))
          debug_enabled with
      | (wres, effs) =>
          let step : Except PyExn (Bool × String × PyVal) × FS :=
            match unpack3 wres with
            | Except.error e => (Except.error e, fs1)
            | Except.ok (success, status, msg) =>
                if self.save_solved_captchas && success && (status == "SOLVED")
                then
                  match msg.code with
                  | Except.ok code =>
                      (Except.ok (success, status, msg),
                        fsRename fs1 "temp/normal_captcha.jpeg"
                          ("solved_captchas/" ++ code ++ ".jpeg"))
                  | Except.error e => (Except.error e, fs1)
                else
                  (Except.ok (success, status, msg),
                    remove_files fs1 ["temp/normal_captcha.jpeg"])
          (step.1, step.2, effs)

/-- Nested helper submit_captcha_response of Captcha.recaptcha_v2: find the
hidden g-recaptcha-response element (raising when absent) and assign the
solved code to its value property through execute_script, passing the
element as the script argument. -/
def Captcha.submit_captcha_response (d : Driver) (result : RawResult) :
    List Effect × Except PyExn Unit :=
  match find_element d By.id "g-recaptcha-response" with
  | Except.ok recaptcha_repsonse_element =>
      ([Effect.execScript ("arguments[0].value=\"" ++ result.code ++ "\"")
          (some recaptcha_repsonse_element)], Except.ok ())
  | Except.error e => ([], Except.error e)

/-- Captcha.recaptcha_v2: find any element carrying a data-sitekey
attribute; when none exists return the NO RECAPTCHA_V2 FOUND IN triple
naming the page URL. Otherwise submit the site key and page URL to the
solving service through the unified wrapper, applying the returned code
via submit_captcha_response, and hand the wrapper result back unchanged.
The solving-service outcome is the solverResp argument. -/
def Captcha.recaptcha_v2 (self : Captcha) (d : Driver) (page_url : String)
    (debug_enabled : Bool) (solverResp : Except PyExn RawResult) :
    WrapResult × List Effect :=
  match is_elem_present d By.cssSelector "[data-sitekey]" with
  | some site_key_element =>
      Captcha._solve_captcha self
        ([Effect.solverRecaptcha
            ((site_key_element.getAttr "data-sitekey").getD "None") page_url],
          solverResp)
        (fun result => Captcha.submit_captcha_response d result)
        debug_enabled
  | none =>
      (WrapResult.triple false "NO RECAPTCHA_V2 FOUND IN" (PyVal.str page_url),
        [])

/-- Method names defined on the Captcha class, in source order. -/
def Captcha.methodNames : List String :=
  ["__init__", "_solve_captcha", "save_captcha", "normal_captcha",
   "recaptcha_v2", "get_captcha_params", "cf_solver_captcha",
   "send_token_callback", "cf_final_message", "cloudflare_turnstile",
   "solve"]

/-- Python attribute lookup of a method on a Captcha instance: the name
when the class defines it, AttributeError otherwise. -/
def pyGetAttrCaptcha (name : String) : Except PyExn String :=
  if Captcha.methodNames.contains name then Except.ok name
  else Except.error (PyExn.otherException ("AttributeError: " ++ name))

/-- Outcome of the Turnstile entry point: either the attribute lookup of
its first statement fails, or control would reach the parameter
interception and the solve and apply protocol. -/
inductive TurnstileOutcome
  | attrError (missing : String)
  | reachedSolveProtocol
deriving DecidableEq

/-- Captcha.cloudflare_turnstile: its first statement resolves the
attribute self.get_capture_params before anything else runs; the remainder
of the body (parameter interception, Turnstile solve, callback injection)
executes only if that lookup succeeds, and is elided here because the
claim under verification is precisely that it is never reached. -/
def Captcha.cloudflare_turnstile (_self : Captcha) (_driver : Driver)
    (_debug_enabled : Bool) : TurnstileOutcome :=
  match pyGetAttrCaptcha "get_capture_params" with
  | Except.error _ => TurnstileOutcome.attrError "get_capture_params"
  | Except.ok _ => TurnstileOutcome.reachedSolveProtocol

/-- Captcha.solve: default a falsy page_url to the current URL of the
driver and a falsy captcha_type to recaptcha_v2. When solving is enabled
or force-enabled, dispatch on the lowercased kind to recaptcha_v2 or
normal_captcha (any other kind keeps the initializer triple of False and
two empty strings), unpack the handler triple, and return success together
with the formatted status string. Otherwise block on the manual prompt;
if archiving is on and the kind is normal_captcha and the input element is
present, snapshot the manually typed value via save_captcha; then report
success with the fixed manual status. The solving-service outcome is the
solverResp argument. -/
def Captcha.solve (self : Captcha) (d : Driver) (fs : FS)
    (captcha_type page_url : Option String)
    (force_enable force_debug : Bool)
    (solverResp : Except PyExn RawResult) :
    Except PyExn (Bool × String) × FS × List Effect :=
  let page_url := pyOrStr page_url d.currentUrl
  let captcha_type := pyOrStr captcha_type "recaptcha_v2"
  let debug_enabled := self.debug_mode || force_debug
  if self.enabled || force_enable then
    if pyLower captcha_type = "recaptcha_v2" then
      match Captcha.recaptcha_v2 self d page_url debug_enabled solverResp with
      | (wres, effs) =>
          match unpack3 wres with
          | Except.ok (success, status, msg) =>
              (Except.ok (success, status ++ ": " ++ pyValStr msg), fs, effs)
          | Except.error e => (Except.error e, fs, effs)
    else if pyLower captcha_type = "normal_captcha" then
      match Captcha.normal_captcha self d fs page_url debug_enabled solverResp
      with
      | (res, fs2, effs) =>
          match res with
          | Except.ok (success, status, msg) =>
              (Except.ok (success, status ++ ": " ++ pyValStr msg), fs2, effs)
          | Except.error e => (Except.error e, fs2, effs)
    else
      (Except.ok (false, ("" ++ ": " ++ pyValStr (PyVal.str ""))), fs, [])
  else
    let promptEffs := [Effect.promptInput "Press enter to proceed: "]
    if self.save_solved_captchas && (pyLower captcha_type == "normal_captcha")
    then
      match is_elem_present d By.id
          "ctl00_ContentPlaceHolder1_txtVerificationCode" with
      | some captcha_input =>
          match Captcha.save_captcha self d fs
              ("solved_captchas/" ++ ((captcha_input.getAttr "value").getD "None")
                ++ ".jpeg") with
          | (Except.ok _, fs2) =>
              (Except.ok (true, "Manually solved CAPTCHA"), fs2, promptEffs)
          | (Except.error e, fs2) => (Except.error e, fs2, promptEffs)
      | none => (Except.ok (true, "Manually solved CAPTCHA"), fs, promptEffs)
    else (Except.ok (true, "Manually solved CAPTCHA"), fs, promptEffs)

/-! Concrete fixtures used to instantiate the theorems below. -/

/-- Configuration with solving enabled and archival on. -/
def cfgEnabledArchive : Captcha := ⟨none, true, true, true⟩

/-- Configuration with solving disabled and archival on. -/
def cfgDisabledArchive : Captcha := ⟨none, false, true, true⟩

/-- A page with no elements at all. -/
def pageEmpty : Driver := ⟨"http://example.test/page", []⟩

/-- The image element of the sample image-CAPTCHA page. -/
def sampleImageElem : Elem :=
  ⟨[("id", "ctl00_ContentPlaceHolder1_CaptchaImg"),
    ("src", "data:image/jpeg;base64,AAAA")]⟩

/-- The input element of the sample image-CAPTCHA page. -/
def sampleInputElem : Elem :=
  ⟨[("id", "ctl00_ContentPlaceHolder1_txtVerificationCode")]⟩

/-- A page carrying the image-CAPTCHA markup with a data-URI image. -/
def pageWithImageCaptcha : Driver :=
  ⟨"http://example.test/page", [sampleImageElem, sampleInputElem]⟩

/-- The element carrying the site key on the sample recaptcha page. -/
def sampleSitekeyElem : Elem := ⟨[("data-sitekey", "SK1")]⟩

/-- The hidden response field of the sample recaptcha page. -/
def sampleResponseElem : Elem := ⟨[("id", "g-recaptcha-response")]⟩

/-- A page carrying recaptcha-v2 markup. -/
def pageWithRecaptcha : Driver :=
  ⟨"http://example.test/page", [sampleSitekeyElem, sampleResponseElem]⟩

/-- A page whose image element lacks a src attribute while the paired
input element is present and holds a typed value. -/
def pageBrokenImage : Driver :=
  ⟨"http://example.test/page",
   [⟨[("id", "ctl00_ContentPlaceHolder1_CaptchaImg")]⟩,
    ⟨[("id", "ctl00_ContentPlaceHolder1_txtVerificationCode"),
      ("value", "XY")]⟩]⟩

/-! Helper lemmas. -/

/-- Reading back a freshly written file. -/
theorem fsRead_fsWrite_self (fs : FS) (p : String) (b : List Nat) :
    fsRead (fsWrite fs p b) p = some b := by
  simp [fsRead, fsWrite]

/-- Writing one file leaves every other path unchanged. -/
theorem fsRead_fsWrite_ne (fs : FS) (p q : String) (b : List Nat)
    (h : q ≠ p) : fsRead (fsWrite fs p b) q = fsRead fs q := by
  simp [fsRead, fsWrite, h]

/-- A removed file is gone. -/
theorem fsRead_fsRemove_self (fs : FS) (p : String) :
    fsRead (fsRemove fs p) p = none := by
  simp [fsRead, fsRemove]

/-- Removing one file leaves every other path unchanged. -/
theorem fsRead_fsRemove_ne (fs : FS) (p q : String) (h : q ≠ p) :
    fsRead (fsRemove fs p) q = fsRead fs q := by
  simp [fsRead, fsRemove, h]

/-- The archive path produced from any solved code differs from the temp
image path: the two strings start with different characters. -/
theorem archive_ne_temp (code : String) :
    ("solved_captchas/" ++ code ++ ".jpeg") ≠ "temp/normal_captcha.jpeg" := by
  intro h
  have h2 : ("solved_captchas/" ++ code ++ ".jpeg").data.take 1 =
      ("temp/normal_captcha.jpeg" : String).data.take 1 := by rw [h]
  have h3 : ("solved_captchas/" ++ code ++ ".jpeg").data.take 1 = ['s'] := rfl
  rw [h3] at h2
  exact absurd h2 (by decide)

/-! Claim theorems. -/

/-- C1: for every solve callback handed to the unified wrapper, a raised
timeout, network, API or other exception is caught and mapped to a triple
of success false, the matching status tag and the exception object itself;
the wrapper is total, so no solve-callback exception reaches the caller,
and the four tags are TIMEOUT, NETWORK_ERROR, API_ERROR and UNKNOWN_ERROR
respectively. -/
theorem claim_C1 :
    (∀ (c : Captcha) (eff : List Effect) (e : PyExn)
        (cb : RawResult → List Effect × Except PyExn Unit) (dbg : Bool),
      Captcha._solve_captcha c (eff, Except.error e) cb dbg =
        (WrapResult.triple false (pyExnTag e) (PyVal.exn e), eff))
    ∧ (∀ m, pyExnTag (PyExn.timeoutException m) = "TIMEOUT")
    ∧ (∀ m, pyExnTag (PyExn.networkException m) = "NETWORK_ERROR")
    ∧ (∀ m, pyExnTag (PyExn.apiException m) = "API_ERROR")
    ∧ (∀ m, pyExnTag (PyExn.otherException m) = "UNKNOWN_ERROR") :=
  ⟨fun _ _ _ _ _ => rfl, fun _ => rfl, fun _ => rfl, fun _ => rfl, fun _ => rfl⟩

/-- C9: when the solve callback succeeds with raw response r but the
result callback then raises, the return-inside-finally of the wrapper
suppresses the exception and hands back the raw response itself, which is
not a success-status-detail triple. -/
theorem claim_C9 (c : Captcha) (eff : List Effect) (r : RawResult)
    (cbEff : RawResult → List Effect) (e : PyExn) (dbg : Bool) :
    Captcha._solve_captcha c (eff, Except.ok r)
        (fun x => (cbEff x, Except.error e)) dbg =
      (WrapResult.rawOnly r, eff ++ cbEff r)
    ∧ ∀ (s : Bool) (st : String) (m : PyVal),
        WrapResult.rawOnly r ≠ WrapResult.triple s st m :=
  ⟨rfl, fun _ _ _ h => WrapResult.noConfusion h⟩

/-- C2: when the image element or its paired input element is absent,
normal_captcha returns the ordinary triple of false, NO CAPTCHA FOUND IN
and the page URL, leaving the filesystem untouched and performing no
effect; when no element carries a data-sitekey attribute, recaptcha_v2
returns the ordinary triple of false, NO RECAPTCHA_V2 FOUND IN and the
page URL; neither path raises. -/
theorem claim_C2 :
    (∀ (c : Captcha) (d : Driver) (fs : FS) (url : String) (dbg : Bool)
        (resp : Except PyExn RawResult),
      (is_elem_present d By.id "ctl00_ContentPlaceHolder1_CaptchaImg" = none ∨
        is_elem_present d By.id "ctl00_ContentPlaceHolder1_txtVerificationCode"
          = none) →
      Captcha.normal_captcha c d fs url dbg resp =
        (Except.ok (false, "NO CAPTCHA FOUND IN", PyVal.str url), fs, []))
    ∧ (∀ (c : Captcha) (d : Driver) (url : String) (dbg : Bool)
        (resp : Except PyExn RawResult),
      is_elem_present d By.cssSelector "[data-sitekey]" = none →
      Captcha.recaptcha_v2 c d url dbg resp =
        (WrapResult.triple false "NO RECAPTCHA_V2 FOUND IN" (PyVal.str url),
          [])) := by
  constructor
  · intro c d fs url dbg resp h
    unfold Captcha.normal_captcha Captcha.save_captcha
    rcases h with h | h <;>
      cases h1 : is_elem_present d By.id "ctl00_ContentPlaceHolder1_CaptchaImg"
        <;>
      cases h2 : is_elem_present d By.id
          "ctl00_ContentPlaceHolder1_txtVerificationCode" <;>
      simp_all
  · intro c d url dbg resp h
    unfold Captcha.recaptcha_v2
    rw [h]

/-- Witness for C2 at the empty page. -/
theorem claim_C2_witness :
    (is_elem_present pageEmpty By.id "ctl00_ContentPlaceHolder1_CaptchaImg"
        = none ∨
      is_elem_present pageEmpty By.id
        "ctl00_ContentPlaceHolder1_txtVerificationCode" = none)
    ∧ Captcha.normal_captcha cfgEnabledArchive pageEmpty emptyFS
        "http://example.test/page" false (Except.ok ⟨"AB12CD"⟩) =
      (Except.ok (false, "NO CAPTCHA FOUND IN",
        PyVal.str "http://example.test/page"), emptyFS, [])
    ∧ is_elem_present pageEmpty By.cssSelector "[data-sitekey]" = none
    ∧ Captcha.recaptcha_v2 cfgEnabledArchive pageEmpty
        "http://example.test/page" false (Except.ok ⟨"AB12CD"⟩) =
      (WrapResult.triple false "NO RECAPTCHA_V2 FOUND IN"
        (PyVal.str "http://example.test/page"), []) :=
  ⟨Or.inl rfl,
    claim_C2.1 cfgEnabledArchive pageEmpty emptyFS "http://example.test/page"
      false (Except.ok ⟨"AB12CD"⟩) (Or.inl rfl),
    rfl,
    claim_C2.2 cfgEnabledArchive pageEmpty "http://example.test/page" false
      (Except.ok ⟨"AB12CD"⟩) rfl⟩

/-- C3: on a page whose image element has the sample data-URI src and
whose input element is present, the image path writes the base64-decoded
payload (the src attribute with its 23-character data-URI prefix
stripped) to the temp file, calls the solving service on that file with
caseSensitive 1, minLength 6 and maxLength 6 while the file holds the
decoded bytes, types the returned code AB12CD into the input element,
and with archival enabled leaves the decoded bytes in archive file
AB12CD.jpeg while the temp file is gone. -/
theorem claim_C3 (c : Captcha) (d : Driver) (fs : FS) (url : String)
    (dbg : Bool) (imgE ciE : Elem)
    (himg : is_elem_present d By.id "ctl00_ContentPlaceHolder1_CaptchaImg"
      = some imgE)
    (hsrc : imgE.getAttr "src" = some "data:image/jpeg;base64,AAAA")
    (hin : is_elem_present d By.id
      "ctl00_ContentPlaceHolder1_txtVerificationCode" = some ciE)
    (hsave : c.save_solved_captchas = true) :
    (Captcha.normal_captcha c d fs url dbg (Except.ok ⟨"AB12CD"⟩)).1 =
      Except.ok (true, "SOLVED", PyVal.raw ⟨"AB12CD"⟩)
    ∧ (Captcha.normal_captcha c d fs url dbg (Except.ok ⟨"AB12CD"⟩)).2.2 =
      [Effect.solverNormal "temp/normal_captcha.jpeg" (some [0, 0, 0]) 1 6 6,
       Effect.sendKeys ciE "AB12CD"]
    ∧ ("data:image/jpeg;base64,AAAA".drop 23 = "AAAA"
        ∧ decodebytes "AAAA" = Except.ok [0, 0, 0])
    ∧ fsRead (Captcha.normal_captcha c d fs url dbg (Except.ok ⟨"AB12CD"⟩)).2.1
        "solved_captchas/AB12CD.jpeg" = some [0, 0, 0]
    ∧ fsRead (Captcha.normal_captcha c d fs url dbg (Except.ok ⟨"AB12CD"⟩)).2.1
        "temp/normal_captcha.jpeg" = none := by
  have hdrop : ("data:image/jpeg;base64,AAAA".drop 23) = "AAAA" := by decide
  have hdec : decodebytes "AAAA" = Except.ok [0, 0, 0] := by decide
  simp only [Captcha.normal_captcha, Captcha.save_captcha, himg, hin, hsrc,
    Captcha._solve_captcha, unpack3, hsave, PyVal.code, hdrop, hdec]
  refine ⟨?_, ?_, ⟨trivial, trivial⟩, ?_, ?_⟩ <;>
    simp [fsRead, fsWrite, fsRemove, fsRename, remove_files]

/-- Witness for C3 at the sample image-CAPTCHA page. -/
theorem claim_C3_witness :
    is_elem_present pageWithImageCaptcha By.id
        "ctl00_ContentPlaceHolder1_CaptchaImg" = some sampleImageElem
    ∧ sampleImageElem.getAttr "src" = some "data:image/jpeg;base64,AAAA"
    ∧ is_elem_present pageWithImageCaptcha By.id
        "ctl00_ContentPlaceHolder1_txtVerificationCode" = some sampleInputElem
    ∧ cfgEnabledArchive.save_solved_captchas = true
    ∧ ((Captcha.normal_captcha cfgEnabledArchive pageWithImageCaptcha emptyFS
          "http://example.test/page" false (Except.ok ⟨"AB12CD"⟩)).1 =
        Except.ok (true, "SOLVED", PyVal.raw ⟨"AB12CD"⟩)
      ∧ (Captcha.normal_captcha cfgEnabledArchive pageWithImageCaptcha emptyFS
          "http://example.test/page" false (Except.ok ⟨"AB12CD"⟩)).2.2 =
        [Effect.solverNormal "temp/normal_captcha.jpeg" (some [0, 0, 0]) 1 6 6,
         Effect.sendKeys sampleInputElem "AB12CD"]
      ∧ ("data:image/jpeg;base64,AAAA".drop 23 = "AAAA"
          ∧ decodebytes "AAAA" = Except.ok [0, 0, 0])
      ∧ fsRead (Captcha.normal_captcha cfgEnabledArchive pageWithImageCaptcha
            emptyFS "http://example.test/page" false
            (Except.ok ⟨"AB12CD"⟩)).2.1 "solved_captchas/AB12CD.jpeg" =
          some [0, 0, 0]
      ∧ fsRead (Captcha.normal_captcha cfgEnabledArchive pageWithImageCaptcha
            emptyFS "http://example.test/page" false
            (Except.ok ⟨"AB12CD"⟩)).2.1 "temp/normal_captcha.jpeg" = none) :=
  ⟨by decide, by decide, by decide, by decide,
    claim_C3 cfgEnabledArchive pageWithImageCaptcha emptyFS
      "http://example.test/page" false sampleImageElem sampleInputElem
      (by decide) (by decide) (by decide) (by decide)⟩

/-- C4: whenever the image path actually wrote the temp image — both
elements present, the image src readable and its stripped payload
decoding cleanly (a mis-padded payload instead raises binascii.Error
before any solver call, leaving an empty file at the temp path) — a
successful solve with archival enabled leaves no file at the temp path
and the decoded image bytes at the archive path named by the solved
code; in every other case (archival disabled or a failed solve) the temp
file is deleted and every path other than the temp path, the archive
paths included, is exactly as it was before the run, so no archive file
is created. -/
theorem claim_C4 (c : Captcha) (d : Driver) (fs : FS) (url : String)
    (dbg : Bool) (resp : Except PyExn RawResult) (imgE ciE : Elem)
    (src : String) (bytes : List Nat)
    (himg : is_elem_present d By.id "ctl00_ContentPlaceHolder1_CaptchaImg"
      = some imgE)
    (hsrc : imgE.getAttr "src" = some src)
    (hin : is_elem_present d By.id
      "ctl00_ContentPlaceHolder1_txtVerificationCode" = some ciE)
    (hdec : decodebytes (src.drop 23) = Except.ok bytes) :
    (∀ r : RawResult, resp = Except.ok r → c.save_solved_captchas = true →
      fsRead (Captcha.normal_captcha c d fs url dbg resp).2.1
          "temp/normal_captcha.jpeg" = none
      ∧ fsRead (Captcha.normal_captcha c d fs url dbg resp).2.1
          ("solved_captchas/" ++ r.code ++ ".jpeg") =
        some bytes)
    ∧ ((c.save_solved_captchas = false ∨ ∃ e, resp = Except.error e) →
      fsRead (Captcha.normal_captcha c d fs url dbg resp).2.1
          "temp/normal_captcha.jpeg" = none
      ∧ ∀ p, p ≠ "temp/normal_captcha.jpeg" →
          fsRead (Captcha.normal_captcha c d fs url dbg resp).2.1 p
            = fsRead fs p) := by
  constructor
  · rintro r rfl hsave
    simp only [Captcha.normal_captcha, Captcha.save_captcha, himg, hin, hsrc,
      hdec, Captcha._solve_captcha, unpack3, hsave, PyVal.code]
    constructor
    · simp [fsRead, fsWrite, fsRemove, fsRename,
        (archive_ne_temp r.code).symm]
    · simp [fsRead, fsWrite, fsRemove, fsRename]
  · rintro h
    rcases h with hsave | ⟨e, rfl⟩
    · simp only [Captcha.normal_captcha, Captcha.save_captcha, himg, hin,
        hsrc, hdec, Captcha._solve_captcha, unpack3, hsave, PyVal.code]
      cases resp with
      | ok r =>
          constructor
          · simp [fsRead, fsWrite, fsRemove, remove_files]
          · intro p hp
            simp [fsRead, fsWrite, fsRemove, remove_files, hp]
      | error e =>
          constructor
          · simp [fsRead, fsWrite, fsRemove, remove_files]
          · intro p hp
            simp [fsRead, fsWrite, fsRemove, remove_files, hp]
    · simp only [Captcha.normal_captcha, Captcha.save_captcha, himg, hin,
        hsrc, hdec, Captcha._solve_captcha, unpack3, PyVal.code]
      constructor
      · simp [fsRead, fsWrite, fsRemove, remove_files]
      · intro p hp
        simp [fsRead, fsWrite, fsRemove, remove_files, hp]

/-- Witness for C4 at the sample image-CAPTCHA page with a successful
archival run. -/
theorem claim_C4_witness :
    is_elem_present pageWithImageCaptcha By.id
        "ctl00_ContentPlaceHolder1_CaptchaImg" = some sampleImageElem
    ∧ sampleImageElem.getAttr "src" = some "data:image/jpeg;base64,AAAA"
    ∧ is_elem_present pageWithImageCaptcha By.id
        "ctl00_ContentPlaceHolder1_txtVerificationCode" = some sampleInputElem
    ∧ (Except.ok (RawResult.mk "AB12CD") : Except PyExn RawResult)
        = Except.ok (RawResult.mk "AB12CD")
    ∧ cfgEnabledArchive.save_solved_captchas = true
    ∧ decodebytes ("data:image/jpeg;base64,AAAA".drop 23)
        = Except.ok [0, 0, 0]
    ∧ (fsRead (Captcha.normal_captcha cfgEnabledArchive pageWithImageCaptcha
          emptyFS "http://example.test/page" false
          (Except.ok ⟨"AB12CD"⟩)).2.1 "temp/normal_captcha.jpeg" = none
      ∧ fsRead (Captcha.normal_captcha cfgEnabledArchive pageWithImageCaptcha
          emptyFS "http://example.test/page" false
          (Except.ok ⟨"AB12CD"⟩)).2.1
          ("solved_captchas/" ++ (RawResult.mk "AB12CD").code ++ ".jpeg") =
        some [0, 0, 0]) :=
  ⟨by decide, by decide, by decide, rfl, by decide, by decide,
    (claim_C4 cfgEnabledArchive pageWithImageCaptcha emptyFS
        "http://example.test/page" false (Except.ok ⟨"AB12CD"⟩)
        sampleImageElem sampleInputElem "data:image/jpeg;base64,AAAA"
        [0, 0, 0] (by decide) (by decide) (by decide) (by decide)).1
      (RawResult.mk "AB12CD") rfl (by decide)⟩

/-- C5: on a successful recaptcha-v2 solve returning a code, the apply
step passes the hidden g-recaptcha-response element together with a
script whose injected value is exactly that code to execute_script
(direct DOM assignment), and the effect trace contains no simulated
typing. -/
theorem claim_C5 (c : Captcha) (d : Driver) (url : String) (dbg : Bool)
    (ske gre : Elem) (sk code : String)
    (hsk : is_elem_present d By.cssSelector "[data-sitekey]" = some ske)
    (hskv : ske.getAttr "data-sitekey" = some sk)
    (hgre : find_element d By.id "g-recaptcha-response" = Except.ok gre) :
    Captcha.recaptcha_v2 c d url dbg (Except.ok ⟨code⟩) =
      (WrapResult.triple true "SOLVED" (PyVal.raw ⟨code⟩),
       [Effect.solverRecaptcha sk url,
        Effect.execScript ("arguments[0].value=\"" ++ code ++ "\"")
          (some gre)])
    ∧ ∀ e ∈ (Captcha.recaptcha_v2 c d url dbg (Except.ok ⟨code⟩)).2,
        e.isSendKeys = false := by
  have hmain : Captcha.recaptcha_v2 c d url dbg (Except.ok ⟨code⟩) =
      (WrapResult.triple true "SOLVED" (PyVal.raw ⟨code⟩),
       [Effect.solverRecaptcha sk url,
        Effect.execScript ("arguments[0].value=\"" ++ code ++ "\"")
          (some gre)]) := by
    simp only [Captcha.recaptcha_v2, hsk, hskv, Option.getD,
      Captcha._solve_captcha, Captcha.submit_captcha_response, hgre]
    rfl
  refine ⟨hmain, ?_⟩
  rw [hmain]
  intro e he
  simp only [List.mem_cons, List.not_mem_nil, or_false] at he
  rcases he with rfl | rfl <;> rfl

/-- Witness for C5 at the sample recaptcha page. -/
theorem claim_C5_witness :
    is_elem_present pageWithRecaptcha By.cssSelector "[data-sitekey]"
        = some sampleSitekeyElem
    ∧ sampleSitekeyElem.getAttr "data-sitekey" = some "SK1"
    ∧ find_element pageWithRecaptcha By.id "g-recaptcha-response"
        = Except.ok sampleResponseElem
    ∧ (Captcha.recaptcha_v2 cfgEnabledArchive pageWithRecaptcha
          "http://example.test/page" false (Except.ok ⟨"CODE9"⟩) =
        (WrapResult.triple true "SOLVED" (PyVal.raw ⟨"CODE9"⟩),
         [Effect.solverRecaptcha "SK1" "http://example.test/page",
          Effect.execScript ("arguments[0].value=\"" ++ "CODE9" ++ "\"")
            (some sampleResponseElem)])
      ∧ ∀ e ∈ (Captcha.recaptcha_v2 cfgEnabledArchive pageWithRecaptcha
            "http://example.test/page" false (Except.ok ⟨"CODE9"⟩)).2,
          e.isSendKeys = false) :=
  ⟨by decide, by decide, by decide,
    claim_C5 cfgEnabledArchive pageWithRecaptcha "http://example.test/page"
      false sampleSitekeyElem sampleResponseElem "SK1" "CODE9"
      (by decide) (by decide) (by decide)⟩

/-- C6 counterexample: with solving disabled, archival on and kind
normal_captcha, on a page whose image element has no src attribute while
the input element is present, the manual path raises TypeError (slicing
the missing attribute) after the prompt instead of returning success, so
the claim as stated fails at this page state. -/
theorem claim_C6_counterexample :
    (Captcha.solve cfgDisabledArchive pageBrokenImage emptyFS
        (some "normal_captcha") (some "http://example.test/page") false false
        (Except.ok ⟨"Z"⟩)).1 =
      Except.error (PyExn.otherException "TypeError")
    ∧ (Captcha.solve cfgDisabledArchive pageBrokenImage emptyFS
        (some "normal_captcha") (some "http://example.test/page") false false
        (Except.ok ⟨"Z"⟩)).1 ≠
      Except.ok (true, "Manually solved CAPTCHA") := by
  constructor
  · decide
  · decide

/-- C6 as amended: with solving disabled and not force-enabled, for every
CAPTCHA kind and page state — provided that when archival is on and the
kind is normal_captcha, a page carrying both captcha elements has a src
attribute on its image element whose prefix-stripped payload decodes
cleanly (otherwise the archival snapshot raises after the prompt:
TypeError when src is missing, see the counterexample, and
binascii.Error when the payload is mis-padded) — solve emits exactly the
blocking acknowledgment prompt and returns success true with the status
Manually solved CAPTCHA, which contains the phrase manually solved up to
letter case; manual completion is never reported as failure. -/
theorem claim_C6 (c : Captcha) (d : Driver) (fs : FS)
    (captcha_type page_url : Option String) (fdbg : Bool)
    (resp : Except PyExn RawResult)
    (henabled : c.enabled = false)
    (hsafe : c.save_solved_captchas = true →
      pyLower (pyOrStr captcha_type "recaptcha_v2") = "normal_captcha" →
      ∀ ci imgE,
        is_elem_present d By.id
          "ctl00_ContentPlaceHolder1_txtVerificationCode" = some ci →
        is_elem_present d By.id
          "ctl00_ContentPlaceHolder1_CaptchaImg" = some imgE →
        ∃ src bytes, imgE.getAttr "src" = some src
          ∧ decodebytes (src.drop 23) = Except.ok bytes) :
    (Captcha.solve c d fs captcha_type page_url false fdbg resp).1 =
      Except.ok (true, "Manually solved CAPTCHA")
    ∧ (Captcha.solve c d fs captcha_type page_url false fdbg resp).2.2 =
      [Effect.promptInput "Press enter to proceed: "]
    ∧ strContains (pyLower "Manually solved CAPTCHA") "manually solved"
        = true := by
  have key : (Captcha.solve c d fs captcha_type page_url false fdbg resp).1 =
        Except.ok (true, "Manually solved CAPTCHA")
      ∧ (Captcha.solve c d fs captcha_type page_url false fdbg resp).2.2 =
        [Effect.promptInput "Press enter to proceed: "] := by
    simp only [Captcha.solve, henabled, Bool.or_self]
    split
    · next hguard =>
        exfalso
        simp at hguard
    · split
      · next hg =>
          rcases Bool.and_eq_true_iff.mp hg with ⟨hsv, hkind⟩
          cases hin : is_elem_present d By.id
              "ctl00_ContentPlaceHolder1_txtVerificationCode" with
          | none => simp [hin]
          | some ci =>
              simp only [hin]
              unfold Captcha.save_captcha
              cases himg : is_elem_present d By.id
                  "ctl00_ContentPlaceHolder1_CaptchaImg" with
              | none => simp [himg, hin]
              | some imgE =>
                  obtain ⟨src, bytes, hsrcv, hdec⟩ :=
                    hsafe hsv (beq_iff_eq.mp hkind) ci imgE hin himg
                  simp [himg, hin, hsrcv, hdec]
      · next hg => simp
  exact ⟨key.1, key.2, by decide⟩

/-- Witness for the amended C6 at the empty page with solving disabled. -/
theorem claim_C6_witness :
    cfgDisabledArchive.enabled = false
    ∧ ((Captcha.solve cfgDisabledArchive pageEmpty emptyFS none none false
          false (Except.ok ⟨"Z"⟩)).1 =
        Except.ok (true, "Manually solved CAPTCHA")
      ∧ (Captcha.solve cfgDisabledArchive pageEmpty emptyFS none none false
          false (Except.ok ⟨"Z"⟩)).2.2 =
        [Effect.promptInput "Press enter to proceed: "]
      ∧ strContains (pyLower "Manually solved CAPTCHA") "manually solved"
          = true) :=
  ⟨by decide,
    claim_C6 cfgDisabledArchive pageEmpty emptyFS none none false
      (Except.ok ⟨"Z"⟩) (by decide)
      (fun _ _ ci _ hci _ => by
        rw [show is_elem_present pageEmpty By.id
            "ctl00_ContentPlaceHolder1_txtVerificationCode" = none from
          by decide] at hci
        exact Option.noConfusion hci)⟩

/-- C7 counterexample: with solving enabled and an unrecognized kind,
solve returns the formatted status string colon-space, which is not the
empty string the claim states. -/
theorem claim_C7_counterexample :
    (Captcha.solve cfgEnabledArchive pageEmpty emptyFS (some "hcaptcha")
        (some "http://example.test/page") false false
        (Except.ok ⟨"Z"⟩)).1 = Except.ok (false, ": ")
    ∧ (": " : String) ≠ "" := by
  constructor
  · decide
  · decide

/-- C7 as amended: with solving enabled or force-enabled and a kind that
lowercases to neither recaptcha_v2 nor normal_captcha, solve performs no
handler work — no effects, filesystem untouched — and returns success
false with the status string colon-space, the empty internal status and
empty message joined by the separator of the f-string. -/
theorem claim_C7 (c : Captcha) (d : Driver) (fs : FS)
    (captcha_type page_url : Option String) (fe fdbg : Bool)
    (resp : Except PyExn RawResult)
    (hena : (c.enabled || fe) = true)
    (h1 : pyLower (pyOrStr captcha_type "recaptcha_v2") ≠ "recaptcha_v2")
    (h2 : pyLower (pyOrStr captcha_type "recaptcha_v2") ≠ "normal_captcha") :
    Captcha.solve c d fs captcha_type page_url fe fdbg resp =
      (Except.ok (false, ": "), fs, []) := by
  simp only [Captcha.solve, hena, if_true, h1, h2, if_neg, if_false]
  rw [show ("" ++ ": " ++ pyValStr (PyVal.str "")) = ": " from by decide]

/-- Witness for the amended C7 with the unrecognized kind hcaptcha. -/
theorem claim_C7_witness :
    (cfgEnabledArchive.enabled || false) = true
    ∧ pyLower (pyOrStr (some "hcaptcha") "recaptcha_v2") ≠ "recaptcha_v2"
    ∧ pyLower (pyOrStr (some "hcaptcha") "recaptcha_v2") ≠ "normal_captcha"
    ∧ Captcha.solve cfgEnabledArchive pageEmpty emptyFS (some "hcaptcha")
        (some "http://example.test/other") false false
        (Except.error (PyExn.apiException "quota")) =
      (Except.ok (false, ": "), emptyFS, []) :=
  ⟨by decide, by decide, by decide,
    claim_C7 cfgEnabledArchive pageEmpty emptyFS (some "hcaptcha")
      (some "http://example.test/other") false false
      (Except.error (PyExn.apiException "quota"))
      (by decide) (by decide) (by decide)⟩

/-- Appending effect traces preserves absence of Turnstile calls. -/
theorem noTurnstile_append {l1 l2 : List Effect}
    (h1 : l1.all (fun e => !e.isTurnstile) = true)
    (h2 : l2.all (fun e => !e.isTurnstile) = true) :
    (l1 ++ l2).all (fun e => !e.isTurnstile) = true := by
  simp only [List.all_append]
  exact Bool.and_eq_true_iff.mpr ⟨h1, h2⟩

/-- The wrapper emits only the effects of its two callbacks. -/
theorem wrap_noTurnstile (c : Captcha)
    (p : List Effect × Except PyExn RawResult)
    (cb : RawResult → List Effect × Except PyExn Unit) (dbg : Bool)
    (h1 : p.1.all (fun e => !e.isTurnstile) = true)
    (h2 : ∀ r, ((cb r).1).all (fun e => !e.isTurnstile) = true) :
    ((Captcha._solve_captcha c p cb dbg).2).all
      (fun e => !e.isTurnstile) = true := by
  rcases p with ⟨eff, resp⟩
  unfold Captcha._solve_captcha
  cases resp with
  | error e => exact h1
  | ok r =>
      rcases hcb : cb r with ⟨ae, ar⟩
      have hae : ae.all (fun e => !e.isTurnstile) = true := by
        have := h2 r
        rw [hcb] at this
        exact this
      cases ar with
      | ok u => simpa [hcb] using noTurnstile_append h1 hae
      | error e => simpa [hcb] using noTurnstile_append h1 hae

/-- The recaptcha handler never calls the Turnstile solver. -/
theorem recaptcha_noTurnstile (c : Captcha) (d : Driver) (url : String)
    (dbg : Bool) (resp : Except PyExn RawResult) :
    ((Captcha.recaptcha_v2 c d url dbg resp).2).all
      (fun e => !e.isTurnstile) = true := by
  unfold Captcha.recaptcha_v2
  cases h : is_elem_present d By.cssSelector "[data-sitekey]" with
  | none => simp
  | some ske =>
      apply wrap_noTurnstile
      · simp [Effect.isTurnstile]
      · intro r
        unfold Captcha.submit_captcha_response
        cases find_element d By.id "g-recaptcha-response" <;>
          simp [Effect.isTurnstile]

/-- The image handler never calls the Turnstile solver. -/
theorem normal_noTurnstile (c : Captcha) (d : Driver) (fs : FS)
    (url : String) (dbg : Bool) (resp : Except PyExn RawResult) :
    ((Captcha.normal_captcha c d fs url dbg resp).2.2).all
      (fun e => !e.isTurnstile) = true := by
  unfold Captcha.normal_captcha
  rcases Captcha.save_captcha c d fs "temp/normal_captcha.jpeg"
    with ⟨res, fs1⟩
  cases res with
  | error e => simp
  | ok oe =>
      cases oe with
      | none => simp
      | some ci =>
          exact wrap_noTurnstile c _ _ dbg (by simp [Effect.isTurnstile])
            (fun r => by simp [Effect.isTurnstile])

/-- C8: the Turnstile entry point is dead code twice over — the method
table has get_captcha_params but not the get_capture_params name its
first statement looks up, so every call fails at that attribute lookup
before reaching the solve and apply protocol; and for every input the
dispatch of solve emits no Turnstile solving-service call at all, only
the two wired kinds being reachable. -/
theorem claim_C8 :
    ("get_capture_params" ∉ Captcha.methodNames)
    ∧ ("get_captcha_params" ∈ Captcha.methodNames)
    ∧ (∀ (c : Captcha) (d : Driver) (dbg : Bool),
        Captcha.cloudflare_turnstile c d dbg =
          TurnstileOutcome.attrError "get_capture_params")
    ∧ (∀ (c : Captcha) (d : Driver) (fs : FS) (t purl : Option String)
        (fe fdbg : Bool) (resp : Except PyExn RawResult),
        ((Captcha.solve c d fs t purl fe fdbg resp).2.2).all
          (fun e => !e.isTurnstile) = true) := by
  refine ⟨by decide, by decide, fun c d dbg => rfl, ?_⟩
  intro c d fs t purl fe fdbg resp
  unfold Captcha.solve
  dsimp only
  split
  · split
    · rcases hw : Captcha.recaptcha_v2 c d (pyOrStr purl d.currentUrl)
          (c.debug_mode || fdbg) resp with ⟨wres, effs⟩
      have := recaptcha_noTurnstile c d (pyOrStr purl d.currentUrl)
        (c.debug_mode || fdbg) resp
      rw [hw] at this
      cases unpack3 wres <;> simpa using this
    · split
      · rcases hn : Captcha.normal_captcha c d fs (pyOrStr purl d.currentUrl)
            (c.debug_mode || fdbg) resp with ⟨res, fs2, effs⟩
        have := normal_noTurnstile c d fs (pyOrStr purl d.currentUrl)
          (c.debug_mode || fdbg) resp
        rw [hn] at this
        cases res <;> simpa using this
      · simp
  · repeat' split
    all_goals simp [Effect.isTurnstile]

/-- C10: omitting captcha_type and page_url (passing Python None) makes
solve behave exactly as an explicit call with recaptcha_v2 and the current
URL of the driver, and when solving is enabled the bare call emits
precisely the effects of the recaptcha-v2 handler run against the current
page. -/
theorem claim_C10 (c : Captcha) (d : Driver) (fs : FS) (fe fdbg : Bool)
    (resp : Except PyExn RawResult) :
    Captcha.solve c d fs none none fe fdbg resp =
      Captcha.solve c d fs (some "recaptcha_v2") (some d.currentUrl) fe fdbg
        resp
    ∧ ((c.enabled || fe) = true →
        (Captcha.solve c d fs none none fe fdbg resp).2.2 =
          (Captcha.recaptcha_v2 c d d.currentUrl (c.debug_mode || fdbg)
            resp).2) := by
  have e1 : pyOrStr (some "recaptcha_v2") "recaptcha_v2" =
      pyOrStr none "recaptcha_v2" := by decide
  have e2 : pyOrStr (some d.currentUrl) d.currentUrl =
      pyOrStr none d.currentUrl := by
    simp [pyOrStr]
  constructor
  · unfold Captcha.solve
    rw [e1, e2]
  · intro h
    unfold Captcha.solve
    dsimp only
    rw [if_pos h, if_pos (show pyLower (pyOrStr none "recaptcha_v2")
      = "recaptcha_v2" from by decide)]
    rcases hw : Captcha.recaptcha_v2 c d (pyOrStr none d.currentUrl)
        (c.debug_mode || fdbg) resp with ⟨wres, effs⟩
    have hurl : pyOrStr none d.currentUrl = d.currentUrl := rfl
    rw [hurl] at hw
    rw [hw]
    cases unpack3 wres <;> simp [hw]

/-- Witness for C10 at the sample recaptcha page with solving enabled. -/
theorem claim_C10_witness :
    (cfgEnabledArchive.enabled || false) = true
    ∧ Captcha.solve cfgEnabledArchive pageWithRecaptcha emptyFS none none
        false false (Except.ok ⟨"CODE9"⟩) =
      Captcha.solve cfgEnabledArchive pageWithRecaptcha emptyFS
        (some "recaptcha_v2") (some pageWithRecaptcha.currentUrl) false false
        (Except.ok ⟨"CODE9"⟩)
    ∧ (Captcha.solve cfgEnabledArchive pageWithRecaptcha emptyFS none none
        false false (Except.ok ⟨"CODE9"⟩)).2.2 =
      (Captcha.recaptcha_v2 cfgEnabledArchive pageWithRecaptcha
        pageWithRecaptcha.currentUrl
        (cfgEnabledArchive.debug_mode || false) (Except.ok ⟨"CODE9"⟩)).2 :=
  ⟨by decide,
    (claim_C10 cfgEnabledArchive pageWithRecaptcha emptyFS false false
      (Except.ok ⟨"CODE9"⟩)).1,
    (claim_C10 cfgEnabledArchive pageWithRecaptcha emptyFS false false
      (Except.ok ⟨"CODE9"⟩)).2 (by decide)⟩

/-- Witness for C1: the timeout mapping at a concrete exception. -/
theorem claim_C1_witness :
    Captcha._solve_captcha cfgEnabledArchive
        ([], Except.error (PyExn.timeoutException "t"))
        (fun _ => ([], Except.ok ())) false =
      (WrapResult.triple false "TIMEOUT"
        (PyVal.exn (PyExn.timeoutException "t")), [])
    ∧ pyExnTag (PyExn.timeoutException "t") = "TIMEOUT" :=
  ⟨claim_C1.1 cfgEnabledArchive [] (PyExn.timeoutException "t")
      (fun _ => ([], Except.ok ())) false,
    claim_C1.2.1 "t"⟩

/-- Witness for C9 at a concrete raising apply callback. -/
theorem claim_C9_witness :
    Captcha._solve_captcha cfgEnabledArchive ([], Except.ok ⟨"Z"⟩)
        (fun x => ([Effect.sendKeys ⟨[]⟩ x.code],
          Except.error (PyExn.otherException "boom"))) false =
      (WrapResult.rawOnly ⟨"Z"⟩, [] ++ [Effect.sendKeys ⟨[]⟩ "Z"])
    ∧ WrapResult.rawOnly (⟨"Z"⟩ : RawResult) ≠
      WrapResult.triple true "SOLVED" (PyVal.raw ⟨"Z"⟩) :=
  ⟨(claim_C9 cfgEnabledArchive [] ⟨"Z"⟩
      (fun x => [Effect.sendKeys ⟨[]⟩ x.code])
      (PyExn.otherException "boom") false).1,
    (claim_C9 cfgEnabledArchive [] ⟨"Z"⟩
      (fun x => [Effect.sendKeys ⟨[]⟩ x.code])
      (PyExn.otherException "boom") false).2 true "SOLVED" (PyVal.raw ⟨"Z"⟩)⟩

/-- Witness for C8 at concrete inputs. -/
theorem claim_C8_witness :
    Captcha.cloudflare_turnstile cfgEnabledArchive pageEmpty false =
      TurnstileOutcome.attrError "get_capture_params"
    ∧ ((Captcha.solve cfgEnabledArchive pageWithRecaptcha emptyFS none none
        false false (Except.ok ⟨"C"⟩)).2.2).all
        (fun e => !e.isTurnstile) = true :=
  ⟨claim_C8.2.2.1 cfgEnabledArchive pageEmpty false,
    claim_C8.2.2.2 cfgEnabledArchive pageWithRecaptcha emptyFS none none
      false false (Except.ok ⟨"C"⟩)⟩
